import Mathlib

/-!
Verification of the CPMpy solver-adapter layer (`cpmpy/solvers/ortools.py` and
`cpmpy/solvers/pumpkin.py`) against its natural-language specification.

The development shallowly embeds the adapter logic: Python functions become
Lean functions, Python exceptions become `Except` errors, the per-adapter
caches become explicit state records, and the native solver engines are
abstracted as value oracles exactly where the source treats them as black
boxes.  Line numbers in doc comments refer to the repository sources.
-/

/-- Python exception kinds raised by the adapter code paths we embed. -/
inductive PyErr
  | typeError
  | assertionError
  | valueError
  | keyError
  | notImplementedError
  | notSupportedError
  deriving DecidableEq, Repr

/-- Solver-independent exit status (`ExitStatus` in solver_interface, §3 of the spec:
    one of FEASIBLE, OPTIMAL, UNSATISFIABLE, UNKNOWN). -/
inductive ExitStatus
  | OPTIMAL
  | FEASIBLE
  | UNSATISFIABLE
  | UNKNOWN
  deriving DecidableEq, Repr

/-! ## Transformation pipelines (C1)

`CPM_ortools.transform` (ortools.py lines 391-401) and `CPM_pumpkin.transform`
(pumpkin.py lines 293-308) chain the solver-independent transformation
functions in a fixed textual order.  Each constructor below names one
transformation function from `cpmpy/transformations/`; the two pipeline lists
record the exact order in which each adapter's `transform` applies them. -/

/-- One stage of a backend transform pipeline; `safen` is the partial-function
    safening pass (the source calls it with a safen-toplevel set). -/
inductive Stage
  | toplevel_listing   -- toplevel_list
  | safen              -- partial-function safening pass
  | decompose          -- decompose_in_tree
  | flatten            -- flatten_constraint
  | reify_rw           -- reify_rewrite
  | only_bv            -- only_bv_reifies
  | only_impl          -- only_implies
  | numexpr_eq         -- only_numexpr_equality
  | canon_cmp          -- canonical_comparison
  deriving DecidableEq, Repr

/-- Stage order of `CPM_ortools.transform` (ortools.py lines 391-401):
    toplevel_list, safening, decompose_in_tree, flatten_constraint,
    reify_rewrite, only_numexpr_equality, only_bv_reifies, only_implies. -/
def ortools_pipeline : List Stage :=
  [Stage.toplevel_listing, Stage.safen, Stage.decompose, Stage.flatten,
   Stage.reify_rw, Stage.numexpr_eq, Stage.only_bv, Stage.only_impl]

/-- Stage order of `CPM_pumpkin.transform` (pumpkin.py lines 293-308):
    toplevel_list, decompose_in_tree, then the safening pass (the source
    comments: safening after decompose here, need to safen toplevel elements
    coming from decomposition), flatten_constraint, only_bv_reifies,
    only_implies, reify_rewrite, only_numexpr_equality, canonical_comparison. -/
def pumpkin_pipeline : List Stage :=
  [Stage.toplevel_listing, Stage.decompose, Stage.safen, Stage.flatten,
   Stage.only_bv, Stage.only_impl, Stage.reify_rw, Stage.numexpr_eq,
   Stage.canon_cmp]

/-! ## Pumpkin solve dispatch (C2, C5)

`CPM_pumpkin.solve` (pumpkin.py lines 99-155) selects the native solve
function: `optimise` when an objective is set (asserting no assumptions),
`satisfy_under_assumptions` when assumptions are given (asserting no proof),
and otherwise the plain `satisfy` path, whose parameter preparation executes
the expression `kwargs.update(proof[proof])` (line 152).  The `time_limit`
parameter is accepted by the signature but never read anywhere in the body. -/

/-- A Python value as it appears for the `proof` argument: `None` or a path string. -/
inductive PyVal
  | none_v
  | str_v (s : String)
  deriving DecidableEq, Repr

/-- Python subscripting `container[index]` for the values that can occur as
    `proof`: `None[...]` raises TypeError (NoneType is not subscriptable) and
    `"path"["path"]` raises TypeError (string indices must be integers). -/
def py_getitem : PyVal → PyVal → Except PyErr PyVal
  | PyVal.none_v, _ => Except.error PyErr.typeError
  | PyVal.str_v _, _ => Except.error PyErr.typeError

/-- The native Pumpkin solve entry points. -/
inductive PumNative
  | optimise
  | satisfy_under_assumptions
  | satisfy
  deriving DecidableEq, Repr

/-- Branch selection and parameter preparation of `CPM_pumpkin.solve`
    (pumpkin.py lines 136-155), up to the single native call `solve_func`.
    Returns which native function is invoked, or the Python exception raised
    before any native call.  `time_limit` mirrors the signature argument: the
    source body never reads it, so it does not influence the result. -/
def pumpkin_solve_dispatch (time_limit : Option Int) (has_objective : Bool)
    (assumptions : Option (List Nat)) (proof : PyVal) : Except PyErr PumNative :=
  let _ := time_limit
  if has_objective then
    match assumptions with
    | some _ => Except.error PyErr.assertionError  -- assert assumptions is None
    | none => Except.ok PumNative.optimise
  else
    match assumptions with
    | some _ =>
      if proof = PyVal.none_v then Except.ok PumNative.satisfy_under_assumptions
      else Except.error PyErr.assertionError       -- assert proof is None
    | none =>
      match py_getitem proof proof with            -- kwargs.update(proof[proof])
      | Except.error e => Except.error e
      | Except.ok _ => Except.ok PumNative.satisfy

/-! ## Solution read-back (C3)

After the native solve, `CPM_ortools.solve` (ortools.py lines 241-264) and
`CPM_pumpkin.solve` (pumpkin.py lines 197-221) either copy every user
variable's value out of the native model (when a solution is available) or
reset every user variable's cached value to None. -/

/-- Kind of a CPMpy decision variable. -/
inductive VKind
  | vbool
  | vint
  deriving DecidableEq, Repr

/-- A user variable: identity plus kind. -/
structure UVar where
  vid : Nat
  kind : VKind
  deriving DecidableEq, Repr

/-- A cached CPMpy value: Python bool or int. -/
inductive CpmValue
  | vb (b : Bool)
  | vi (n : Int)
  deriving DecidableEq, Repr

/-- Value read-back for one variable in `CPM_ortools.solve` (lines 247-249):
    `ort_solver.Value` yields an integer for every variable; Boolean variables
    are then coerced with Python `bool(...)` (nonzero means true). -/
def ortools_read_var (val : Nat → Int) (v : UVar) : CpmValue :=
  match v.kind with
  | VKind.vbool => CpmValue.vb (val v.vid != 0)
  | VKind.vint => CpmValue.vi (val v.vid)

/-- The value-translation loop of `CPM_ortools.solve` (lines 243-263): when a
    solution is available each user variable's cached value is filled in,
    otherwise every cached value is cleared to None. -/
def ortools_readback (has_sol : Bool) (val : Nat → Int) (uvars : List UVar) :
    List (UVar × Option CpmValue) :=
  if has_sol then uvars.map (fun v => (v, some (ortools_read_var val v)))
  else uvars.map (fun v => (v, none))

/-- Value read-back for one variable in `CPM_pumpkin.solve` (lines 204-211):
    integer handles are read with `solution.int_value`, boolean handles with
    `solution.bool_value`. -/
def pumpkin_read_var (ival : Nat → Int) (bval : Nat → Bool) (v : UVar) : CpmValue :=
  match v.kind with
  | VKind.vbool => CpmValue.vb (bval v.vid)
  | VKind.vint => CpmValue.vi (ival v.vid)

/-- The value-translation part of `CPM_pumpkin.solve` (lines 199-219). -/
def pumpkin_readback (has_sol : Bool) (ival : Nat → Int) (bval : Nat → Bool)
    (uvars : List UVar) : List (UVar × Option CpmValue) :=
  if has_sol then uvars.map (fun v => (v, some (pumpkin_read_var ival bval v)))
  else uvars.map (fun v => (v, none))

/-! ## Pumpkin constraint dispatch (C4)

`CPM_pumpkin._sum_args` (pumpkin.py lines 360-390) converts a flat sum-like
operator into native argument lists, and the comparison branch of
`CPM_pumpkin._get_constraint` (lines 406-449) dispatches a flat comparison to
one native constraint.  Post-pipeline comparison left-hand sides are flat:
their arguments are variables. -/

/-- Comparison operator names of CPMpy comparisons. -/
inductive CompName
  | eqc | nec | ltc | lec | gtc | gec
  deriving DecidableEq, Repr

/-- Flat left-hand-side expressions of comparisons reaching `_get_constraint`. -/
inductive LhsExpr
  | sumE (args : List UVar)
  | wsumE (ws : List Int) (args : List UVar)
  | subE (a b : UVar)
  | absE (a : UVar)
  | mulE (a b : UVar)
  | divE (a b : UVar)
  deriving DecidableEq, Repr

/-- A scaled native integer term produced by `_sum_args`: the solver variable,
    whether `boolean_as_integer` was applied, and the scale coefficient. -/
structure PumTerm where
  base : Nat
  bool_cast : Bool
  coeff : Int
  deriving DecidableEq, Repr

/-- One argument conversion inside `_sum_args`: `solver_var`, then
    `boolean_as_integer` when the variable is Boolean, then `.scaled c`. -/
def pum_term (v : UVar) (c : Int) : PumTerm :=
  { base := v.vid, bool_cast := decide (v.kind = VKind.vbool), coeff := c }

/-- Embedding of `CPM_pumpkin._sum_args` (pumpkin.py lines 360-390).  The
    source handles `sum` and `wsum`; its third branch is written
    `elif isinstance(Operator, expr)` with the two isinstance arguments
    swapped, so every expression reaching it (in particular `sub`) raises
    TypeError (isinstance arg 2 must be a type), before the final ValueError
    line can be reached. -/
def sum_args (e : LhsExpr) (negate : Bool) : Except PyErr (List PumTerm) :=
  match e with
  | LhsExpr.sumE args =>
    Except.ok (args.map (fun v => pum_term v (if negate then -1 else 1)))
  | LhsExpr.wsumE ws args =>
    Except.ok (((ws.zip args).filter (fun p => p.1 != 0)).map
      (fun p => pum_term p.2 (if negate then -p.1 else p.1)))
  | _ => Except.error PyErr.typeError

/-- Native Pumpkin comparator (pumpkin_py `Comparator`). -/
inductive PumComparator
  | eqP | leP | geP | neP
  deriving DecidableEq, Repr

/-- Comparator translation of `CPM_pumpkin.to_predicate` (lines 335-340):
    strict comparisons are turned into non-strict ones by adjusting the
    constant right-hand side. -/
def to_predicate_comp (c : CompName) (rhs : Int) : PumComparator × Int :=
  match c with
  | CompName.eqc => (PumComparator.eqP, rhs)
  | CompName.lec => (PumComparator.leP, rhs)
  | CompName.gec => (PumComparator.geP, rhs)
  | CompName.nec => (PumComparator.neP, rhs)
  | CompName.ltc => (PumComparator.leP, rhs - 1)
  | CompName.gtc => (PumComparator.geP, rhs + 1)

/-- Native Pumpkin constraints posted by `_get_constraint` for comparisons. -/
inductive PumConstraint
  | equalsC (ts : List PumTerm) (rhs : Int)
  | lessEqC (ts : List PumTerm) (rhs : Int)
  | notEqualsC (ts : List PumTerm) (rhs : Int)
  | absoluteC (x : Nat) (rhs : Int)
  | divisionC (a b : Nat) (rhs : Int)
  | timesC (a b : Nat) (rhs : Int)
  | predClauseC (vid : Nat) (comp : PumComparator) (rhs : Int)
  deriving DecidableEq, Repr

/-- A flat comparison `lhs <name> rhs` with constant right-hand side, as
    produced by the Pumpkin transform pipeline (`canonical_comparison`
    guarantees the constant right-hand side). -/
structure FlatComp where
  cname : CompName
  lhs : LhsExpr
  rhs : Int
  deriving DecidableEq, Repr

/-- The `solver_var` call that the `abs` branch of `_get_constraint` performs
    on its whole left-hand side (line 424): `solver_var` applied to an
    Operator falls through `is_num`, the NegBoolView case, and both variable
    isinstance checks, raising NotImplementedError (pumpkin.py lines 243-249). -/
def solver_var_of_lhs : LhsExpr → Except PyErr Nat
  | _ => Except.error PyErr.notImplementedError

/-- Embedding of the Comparison branch of `CPM_pumpkin._get_constraint`
    (pumpkin.py lines 406-449).  A `sum` with one argument becomes a predicate
    clause (lines 410-412); `==` dispatches on the left-hand-side operator
    name (lines 414-433); the remaining comparison names all convert the
    left-hand side through `_sum_args` (lines 435-447). -/
def get_constraint_cmp (c : FlatComp) : Except PyErr (List PumConstraint) :=
  match c.lhs with
  | LhsExpr.sumE [v] =>
    let (comp, rhs) := to_predicate_comp c.cname c.rhs
    Except.ok [PumConstraint.predClauseC v.vid comp rhs]
  | _ =>
    match c.cname with
    | CompName.eqc =>
      match c.lhs with
      | LhsExpr.sumE _ | LhsExpr.wsumE _ _ | LhsExpr.subE _ _ =>
        -- "sum" in lhs.name (matches sum and wsum) or lhs.name == "sub"
        match sum_args c.lhs false with
        | Except.error e => Except.error e
        | Except.ok ts => Except.ok [PumConstraint.equalsC ts c.rhs]
      | LhsExpr.divE a b => Except.ok [PumConstraint.divisionC a.vid b.vid c.rhs]
      | LhsExpr.mulE a b => Except.ok [PumConstraint.timesC a.vid b.vid c.rhs]
      | LhsExpr.absE _ =>
        -- constraints.Absolute(self.solver_var(lhs), pum_rhs): the WHOLE
        -- lhs operator is passed to solver_var, which raises
        match solver_var_of_lhs c.lhs with
        | Except.error e => Except.error e
        | Except.ok h => Except.ok [PumConstraint.absoluteC h c.rhs]
    | CompName.lec =>
      match sum_args c.lhs false with
      | Except.error e => Except.error e
      | Except.ok ts => Except.ok [PumConstraint.lessEqC ts c.rhs]
    | CompName.ltc =>
      match sum_args c.lhs false with
      | Except.error e => Except.error e
      | Except.ok ts => Except.ok [PumConstraint.lessEqC ts (c.rhs - 1)]
    | CompName.gec =>
      match sum_args c.lhs true with
      | Except.error e => Except.error e
      | Except.ok ts => Except.ok [PumConstraint.lessEqC ts (-c.rhs)]
    | CompName.gtc =>
      match sum_args c.lhs true with
      | Except.error e => Except.error e
      | Except.ok ts => Except.ok [PumConstraint.lessEqC ts (-c.rhs - 1)]
    | CompName.nec =>
      match sum_args c.lhs false with
      | Except.error e => Except.error e
      | Except.ok ts => Except.ok [PumConstraint.notEqualsC ts c.rhs]

/-! ## OR-Tools time-limit guard (C5)

`CPM_ortools.solve` (ortools.py lines 178-181) validates the time limit before
any assumption handling, any parameter forwarding, and the native `Solve`
call (line 207). -/

/-- Steps of `CPM_ortools.solve` from the time-limit guard to the native call:
    returns the number of native `Solve` invocations performed, or the
    configuration error raised before any native call. -/
def ortools_solve_guarded (time_limit : Option Int) : Except PyErr Nat :=
  match time_limit with
  | some t => if t ≤ 0 then Except.error PyErr.valueError else Except.ok 1
  | none => Except.ok 1

/-! ## get_core (C6)

`CPM_ortools.solve` records `assumption_dict` mapping native variable indices
to the CPMpy assumption variables (ortools.py line 186); `CPM_pumpkin.solve`
records `assump_map` from native predicates to assumption variables (line 146)
and stores the native core only in the unsat-under-assumptions branch (line
181).  `get_core` (ortools.py lines 625-645, pumpkin.py lines 529-539) asserts
its precondition and maps the native core back through the recorded dict. -/

/-- Left-to-right effectful map over `Except`, as a Python list comprehension:
    the first raised exception aborts the whole comprehension. -/
def except_map_list (f : Nat → Except PyErr Nat) : List Nat → Except PyErr (List Nat)
  | [] => Except.ok []
  | x :: xs =>
    match f x with
    | Except.error e => Except.error e
    | Except.ok v =>
      match except_map_list f xs with
      | Except.error e => Except.error e
      | Except.ok vs => Except.ok (v :: vs)

/-- Python dict lookup `d[k]` on an association list: KeyError when absent. -/
def alist_get : List (Nat × Nat) → Nat → Except PyErr Nat
  | [], _ => Except.error PyErr.keyError
  | (k, v) :: rest, i => if k = i then Except.ok v else alist_get rest i

/-- The solve-time recording `{ort_var.Index(): cpm_var for (cpm_var, ort_var)
    in zip(assumptions, ort_assum_vars)}` (ortools.py line 186): native index
    paired with the original assumption variable.  The same shape models
    pumpkin's `dict(zip(pum_assumptions, assumptions))` (line 146). -/
def mk_assumption_dict (native_keys : List Nat) (assumptions : List Nat) :
    List (Nat × Nat) :=
  native_keys.zip assumptions

/-- Post-solve state inspected by `CPM_ortools.get_core`. -/
structure OrtCoreState where
  ort_status_infeasible : Bool
  assumption_dict : Option (List (Nat × Nat))

/-- Embedding of `CPM_ortools.get_core` (ortools.py lines 625-645): assert the
    native status is INFEASIBLE, assert assumptions were recorded, then map
    each native core index back through the recorded dict. -/
def ortools_get_core (st : OrtCoreState) (assum_idx : List Nat) :
    Except PyErr (List Nat) :=
  if st.ort_status_infeasible = false then Except.error PyErr.assertionError
  else
    match st.assumption_dict with
    | none => Except.error PyErr.assertionError
    | some d => except_map_list (alist_get d) assum_idx

/-- Embedding of `CPM_pumpkin.get_core` (pumpkin.py lines 529-539): assert a
    native core was stored by the last solve (only the
    unsat-under-assumptions branch stores one), then map each native core
    predicate back through `assump_map`. -/
def pumpkin_get_core (assump_map : List (Nat × Nat)) (core : Option (List Nat)) :
    Except PyErr (List Nat) :=
  match core with
  | none => Except.error PyErr.assertionError
  | some preds => except_map_list (alist_get assump_map) preds

/-! ## solveAll (C7)

`CPM_ortools.solveAll` (ortools.py lines 266-286) rejects models with an
objective before anything else, otherwise installs an `OrtSolutionPrinter`
callback, runs one native solve in enumeration mode (the native engine invokes
the callback once per discovered solution, incrementing its counter,
lines 720-727), and returns the counter. -/

/-- The `OrtSolutionCounter` callback: starts at zero and increments once per
    native `on_solution_callback` invocation (ortools.py lines 713-727). -/
def ort_solution_counter (native_sols : List (List Int)) : Nat :=
  native_sols.foldl (fun c _ => c + 1) 0

/-- Embedding of `CPM_ortools.solveAll` (ortools.py lines 266-286), with the
    native enumeration abstracted as the list of solutions the engine reports
    to the callback.  Returns the call result paired with the number of native
    enumeration solves performed. -/
def ortools_solveAll (has_objective : Bool) (native_sols : List (List Int)) :
    Except PyErr Nat × Nat :=
  if has_objective then (Except.error PyErr.notSupportedError, 0)
  else (Except.ok (ort_solution_counter native_sols), 1)

/-! ## solver_var (C8)

`CPM_ortools.solver_var` (ortools.py lines 289-312) and
`CPM_pumpkin.solver_var` (pumpkin.py lines 224-253) have the same shape:
numbers pass through unchanged, a NegBoolView recurses on its underlying
variable and negates the resulting handle, other known variables are created
once and cached in `_varmap`, and anything else raises NotImplementedError. -/

/-- Inputs to `solver_var`: constants, Boolean variables, negated-Boolean
    views over a Boolean variable, bounded integer variables, and unknown
    variable kinds. -/
inductive CpmVar
  | constV (n : Int)
  | boolV (vid : Nat)
  | negView (vid : Nat)
  | intV (vid : Nat) (lb ub : Int)
  | otherV (vid : Nat)
  deriving DecidableEq, Repr

/-- Native variable handles: a passed-through number, a direct handle, or a
    negated handle (from `.Not()` / `.negate()`). -/
inductive NatHandle
  | numH (n : Int)
  | posH (h : Nat)
  | negH (h : Nat)
  deriving DecidableEq, Repr

/-- Handle negation, `.Not()` in OR-Tools and `.negate()` in Pumpkin. -/
def negate : NatHandle → NatHandle
  | NatHandle.numH n => NatHandle.numH n
  | NatHandle.posH h => NatHandle.negH h
  | NatHandle.negH h => NatHandle.posH h

/-- The `_varmap` cache of one adapter instance plus the native engine's fresh
    handle counter (`NewBoolVar`/`NewIntVar` return fresh handles). -/
structure VarMapState where
  varmap : List (Nat × Nat)
  next_handle : Nat
  deriving DecidableEq, Repr

/-- Association-list lookup for `_varmap` (Python `cpm_var in self._varmap`). -/
def lookup_vm : List (Nat × Nat) → Nat → Option Nat
  | [], _ => none
  | (k, h) :: rest, vid => if k = vid then some h else lookup_vm rest vid

/-- The create-if-absent core of `solver_var`: return the cached native handle,
    or create a fresh one and store it in `_varmap` under the variable. -/
def get_or_create (vid : Nat) (st : VarMapState) : Nat × VarMapState :=
  match lookup_vm st.varmap vid with
  | some h => (h, st)
  | none =>
    (st.next_handle,
     { varmap := st.varmap ++ [(vid, st.next_handle)],
       next_handle := st.next_handle + 1 })

/-- Embedding of `solver_var` (ortools.py lines 289-312, pumpkin.py lines
    224-253): numbers are returned unchanged; a NegBoolView resolves through
    its underlying Boolean variable's cache entry and negates the handle; a
    Boolean or integer variable is created on first call and cached; unknown
    kinds raise NotImplementedError. -/
def solver_var : CpmVar → VarMapState → Except PyErr (NatHandle × VarMapState)
  | CpmVar.constV n, st => Except.ok (NatHandle.numH n, st)
  | CpmVar.negView vid, st =>
    let (h, st') := get_or_create vid st
    Except.ok (negate (NatHandle.posH h), st')
  | CpmVar.boolV vid, st =>
    let (h, st') := get_or_create vid st
    Except.ok (NatHandle.posH h, st')
  | CpmVar.intV vid _ _, st =>
    let (h, st') := get_or_create vid st
    Except.ok (NatHandle.posH h, st')
  | CpmVar.otherV _, _ => Except.error PyErr.notImplementedError

/-! ## User-variable set (C9)

`CPM_ortools.add` (ortools.py lines 421-428) and `CPM_pumpkin.__add__`
(pumpkin.py lines 494-497) collect the variables of the given expressions
into `user_vars` with `get_variables(..., collect=self.user_vars)`.  Posting
can itself register further, freshly created auxiliary variables: in
`CPM_ortools._post_constraint` (reached from `add()` at line 426) the circuit
branch executes `self += [b == (x[i] == j) ...]` over fresh `arcvars`
(lines 570-574), the mod branch `self += link` (lines 515-516) and the pow
branch `self += new_cons` (lines 529-530) with auxiliaries from
`get_or_make_var`; each recursive call collects those auxiliaries into
`user_vars` at line 422.  `CPM_pumpkin.objective` (pumpkin.py lines 255-271)
first creates a fresh auxiliary integer variable
`obj_var = intvar(*get_bounds(expr))` and then executes
`self += expr == obj_var`, which routes through `__add__` and hence collects
`obj_var` itself into `user_vars`. -/

/-- A caller-supplied expression, abstracted to its set of variables (the only
    information `get_variables` extracts from it) together with the number of
    fresh auxiliary variables that posting it self-adds into `user_vars`
    through the recursive `self +=` calls of `_post_constraint` (zero for
    ordinary constraints; positive e.g. for ortools' circuit, mod and pow
    branches). -/
structure CExprM where
  evars : Finset Nat
  n_post_aux : Nat
  deriving DecidableEq

/-- Adapter state relevant to the user-variable set: the set itself plus the
    fresh-variable counter of the variable factory.

    Modelled from the spec: `intvar` (in `cpmpy/expressions/variables.py`,
    not under src/) returns a fresh auxiliary variable, per the spec glossary
    an auxiliary variable is "introduced by the pipeline, not present in the
    user's original model"; freshness is modelled by the counter. -/
structure UVState where
  user_vars : Finset Nat
  next_aux : Nat
  deriving DecidableEq

/-- Caller-visible adapter calls that touch the user-variable set. -/
inductive AdapterCall
  | addC (e : CExprM)
  | objectiveC (e : CExprM) (minimize : Bool)
  deriving DecidableEq

/-- Effect of one call on the user-variable state.  `addC` is
    `get_variables(cpm_expr, collect=self.user_vars)` followed by posting,
    which self-adds `e.n_post_aux` freshly created auxiliary variables into
    `user_vars` through `_post_constraint`'s recursive `self +=` calls
    (ortools.py lines 515-516, 529-530, 570-574); `objectiveC` is pumpkin's
    `objective`: create the fresh `obj_var`, then `self += expr == obj_var`
    collects the variables of `expr` and `obj_var` into `user_vars` through
    `__add__`. -/
def run_call : AdapterCall → UVState → UVState
  | AdapterCall.addC e, st =>
    { user_vars := st.user_vars ∪ e.evars
        ∪ (Finset.range e.n_post_aux).image (fun i => st.next_aux + i),
      next_aux := st.next_aux + e.n_post_aux }
  | AdapterCall.objectiveC e _, st =>
    { user_vars := st.user_vars ∪ e.evars ∪ {st.next_aux},
      next_aux := st.next_aux + 1 }

/-- Run a sequence of adapter calls. -/
def run_calls (calls : List AdapterCall) (st : UVState) : UVState :=
  calls.foldl (fun s c => run_call c s) st

/-- The variables that appeared in expressions the caller explicitly passed to
    `add()` or `objective()`. -/
def caller_vars : List AdapterCall → Finset Nat
  | [] => ∅
  | AdapterCall.addC e :: rest => e.evars ∪ caller_vars rest
  | AdapterCall.objectiveC e _ :: rest => e.evars ∪ caller_vars rest

/-! ## Pumpkin status translation (C10)

`CPM_pumpkin.solve` (pumpkin.py lines 162-201) first classifies the native
result into an `ExitStatus`, then computes `has_sol = self._solve_return(...)`
and, when a solution is available, overwrites the exit status with OPTIMAL
(line 201). -/

/-- Native result of `pum_solver.satisfy`. -/
inductive PumSatResult
  | satisfiable | unsatisfiable | unknown
  deriving DecidableEq, Repr

/-- Native result of `pum_solver.optimise`. -/
inductive PumOptResult
  | optimal | satisfiable | unsatisfiable | unknown
  deriving DecidableEq, Repr

/-- Native result of `pum_solver.satisfy_under_assumptions`. -/
inductive PumAssumResult
  | satisfiable | unsatisfiable | unsat_under_assumptions | unknown
  deriving DecidableEq, Repr

/-- Status classification of the satisfaction branch (pumpkin.py lines
    187-195): Satisfiable is mapped to OPTIMAL in the source. -/
def classify_sat : PumSatResult → ExitStatus
  | PumSatResult.satisfiable => ExitStatus.OPTIMAL
  | PumSatResult.unsatisfiable => ExitStatus.UNSATISFIABLE
  | PumSatResult.unknown => ExitStatus.UNKNOWN

/-- Status classification of the optimisation branch (pumpkin.py lines
    162-172). -/
def classify_opt : PumOptResult → ExitStatus
  | PumOptResult.optimal => ExitStatus.OPTIMAL
  | PumOptResult.satisfiable => ExitStatus.FEASIBLE
  | PumOptResult.unsatisfiable => ExitStatus.UNSATISFIABLE
  | PumOptResult.unknown => ExitStatus.UNKNOWN

/-- Status classification of the assumptions branch (pumpkin.py lines
    174-185): Satisfiable is mapped to OPTIMAL in the source. -/
def classify_assum : PumAssumResult → ExitStatus
  | PumAssumResult.satisfiable => ExitStatus.OPTIMAL
  | PumAssumResult.unsatisfiable => ExitStatus.UNSATISFIABLE
  | PumAssumResult.unsat_under_assumptions => ExitStatus.UNSATISFIABLE
  | PumAssumResult.unknown => ExitStatus.UNKNOWN

/-- Modelled from the spec: `SolverInterface._solve_return`
    (solver_interface.py, not under src/) — "Returns whether a solution is
    available (FEASIBLE or OPTIMAL)". -/
def solve_return : ExitStatus → Bool
  | ExitStatus.FEASIBLE => true
  | ExitStatus.OPTIMAL => true
  | _ => false

/-- The post-classification overwrite of `CPM_pumpkin.solve` (lines 197-201):
    when `_solve_return` reports a solution, the exit status is set to
    OPTIMAL. -/
def pumpkin_final_status (st : ExitStatus) : ExitStatus :=
  if solve_return st then ExitStatus.OPTIMAL else st

/-! ## Helper lemmas (shared) -/

/-- Counting fold: folding a unit increment over a list adds its length. -/
theorem foldl_succ_count (l : List (List Int)) :
    ∀ n : Nat, l.foldl (fun c _ => c + 1) n = n + l.length := by
  induction l with
  | nil => intro n; simp
  | cons x xs ih =>
    intro n
    simp [List.foldl, ih (n + 1)]
    omega

/-- A successful dict lookup returns a value stored in the dict. -/
theorem alist_get_mem {d : List (Nat × Nat)} {i v : Nat}
    (h : alist_get d i = Except.ok v) : ∃ k, (k, v) ∈ d := by
  induction d with
  | nil => cases h
  | cons p rest ih =>
    obtain ⟨k, w⟩ := p
    by_cases hk : k = i
    · refine ⟨k, ?_⟩
      simp [alist_get, hk] at h
      simp [h]
    · have h' : alist_get rest i = Except.ok v := by
        simpa [alist_get, hk] using h
      obtain ⟨k', hk'⟩ := ih h'
      exact ⟨k', List.mem_cons_of_mem _ hk'⟩

/-- Every element of a successful `except_map_list` result is a successful
    image of the mapped function. -/
theorem except_map_list_mem {f : Nat → Except PyErr Nat} :
    ∀ {l res : List Nat}, except_map_list f l = Except.ok res →
      ∀ v ∈ res, ∃ i, f i = Except.ok v := by
  intro l
  induction l with
  | nil =>
    intro res h v hv
    simp [except_map_list] at h
    subst h
    cases hv
  | cons x xs ih =>
    intro res h v hv
    unfold except_map_list at h
    cases hfx : f x with
    | error e => rw [hfx] at h; cases h
    | ok w =>
      rw [hfx] at h
      cases hrest : except_map_list f xs with
      | error e => rw [hrest] at h; cases h
      | ok ws =>
        rw [hrest] at h
        cases h
        rcases List.mem_cons.mp hv with hvw | hvs
        · exact ⟨x, by rw [hfx, hvw]⟩
        · exact ih hrest v hvs

/-- Appending a binding for an absent key makes it found. -/
theorem lookup_vm_append_self (m : List (Nat × Nat)) (vid h : Nat)
    (hm : lookup_vm m vid = none) :
    lookup_vm (m ++ [(vid, h)]) vid = some h := by
  induction m with
  | nil => simp [lookup_vm]
  | cons p rest ih =>
    obtain ⟨k, w⟩ := p
    by_cases hk : k = vid
    · simp [lookup_vm, hk] at hm
    · have hm' : lookup_vm rest vid = none := by simpa [lookup_vm, hk] using hm
      simpa [lookup_vm, hk] using ih hm'

/-- Looking a variable up right after `get_or_create` returns its handle. -/
theorem get_or_create_idem (vid : Nat) (st : VarMapState) :
    get_or_create vid (get_or_create vid st).2
      = ((get_or_create vid st).1, (get_or_create vid st).2) := by
  unfold get_or_create
  cases hl : lookup_vm st.varmap vid with
  | some h => simp [hl]
  | none => simp [hl, lookup_vm_append_self st.varmap vid st.next_handle hl]

/-- Equation lemma: `solver_var` on a Boolean variable. -/
theorem solver_var_boolV_eq (vid : Nat) (st : VarMapState) :
    solver_var (CpmVar.boolV vid) st
      = Except.ok (NatHandle.posH (get_or_create vid st).1, (get_or_create vid st).2) := rfl

/-- Equation lemma: `solver_var` on a negated-Boolean view. -/
theorem solver_var_negView_eq (vid : Nat) (st : VarMapState) :
    solver_var (CpmVar.negView vid) st
      = Except.ok (NatHandle.negH (get_or_create vid st).1, (get_or_create vid st).2) := rfl

/-- Equation lemma: `solver_var` on an integer variable. -/
theorem solver_var_intV_eq (vid : Nat) (lb ub : Int) (st : VarMapState) :
    solver_var (CpmVar.intV vid lb ub) st
      = Except.ok (NatHandle.posH (get_or_create vid st).1, (get_or_create vid st).2) := rfl

/-! ## Claim theorems -/

/-- C1 (counterexample): in `CPM_pumpkin.transform` the partial-function
    safening pass does NOT run before global-constraint decomposition — the
    pipeline applies decomposition first (pumpkin.py lines 297-300), so the
    claimed ordering fails for the Pumpkin adapter. -/
theorem pipeline_safen_order_cex :
    ¬ (List.indexOf Stage.safen pumpkin_pipeline
        < List.indexOf Stage.decompose pumpkin_pipeline)
    ∧ Stage.safen ∈ pumpkin_pipeline ∧ Stage.decompose ∈ pumpkin_pipeline := by
  refine ⟨?_, by decide, by decide⟩
  have h1 : List.indexOf Stage.safen pumpkin_pipeline = 2 := rfl
  have h2 : List.indexOf Stage.decompose pumpkin_pipeline = 1 := rfl
  rw [h1, h2]
  omega

/-- C1 (amended): in the OR-Tools adapter the safening pass runs before
    global-constraint decomposition, while in the Pumpkin adapter the
    decomposition pass runs before safening (deliberately, per the source
    comment, to safen toplevel elements produced by decompositions). -/
theorem pipeline_stage_order :
    List.indexOf Stage.safen ortools_pipeline
      < List.indexOf Stage.decompose ortools_pipeline
    ∧ List.indexOf Stage.decompose pumpkin_pipeline
      < List.indexOf Stage.safen pumpkin_pipeline
    ∧ Stage.safen ∈ ortools_pipeline ∧ Stage.decompose ∈ ortools_pipeline
    ∧ Stage.safen ∈ pumpkin_pipeline ∧ Stage.decompose ∈ pumpkin_pipeline := by
  refine ⟨?_, ?_, by decide, by decide, by decide, by decide⟩
  · have h1 : List.indexOf Stage.safen ortools_pipeline = 1 := rfl
    have h2 : List.indexOf Stage.decompose ortools_pipeline = 2 := rfl
    rw [h1, h2]
    omega
  · have h1 : List.indexOf Stage.decompose pumpkin_pipeline = 1 := rfl
    have h2 : List.indexOf Stage.safen pumpkin_pipeline = 2 := rfl
    rw [h1, h2]
    omega

/-- C2 (code bug): a `CPM_pumpkin.solve()` call with no objective and no
    assumptions never reaches the native `satisfy` call: the parameter
    preparation `kwargs.update(proof[proof])` (pumpkin.py line 152) subscripts
    `None` (or a path string) and raises TypeError first, both with the
    default `proof=None` and with a proof path given.  The claim's behaviour
    (one native solve, four-way status classification) is unreachable on this
    path; the sibling branch on line 139 shows the intended `proof=proof`. -/
theorem pumpkin_satisfy_path_type_error :
    pumpkin_solve_dispatch none false none PyVal.none_v
      = Except.error PyErr.typeError
    ∧ pumpkin_solve_dispatch none false none (PyVal.str_v "proof.log")
      = Except.error PyErr.typeError
    ∧ pumpkin_solve_dispatch (some 10) false none PyVal.none_v
      = Except.error PyErr.typeError :=
  ⟨rfl, rfl, rfl⟩

/-- C3: on every solve, when a solution is available each user variable's
    cached value is filled from the native model — OR-Tools coercing Boolean
    variables from the native integer with Python bool(), Pumpkin reading
    Booleans natively — and when no solution is available every user
    variable's cached value is reset to None, in both adapters. -/
theorem solve_value_readback (val ival : Nat → Int) (bval : Nat → Bool)
    (uvars : List UVar) (v : UVar) (hv : v ∈ uvars) :
    (v, some (ortools_read_var val v)) ∈ ortools_readback true val uvars
    ∧ (v.kind = VKind.vbool → ortools_read_var val v = CpmValue.vb (val v.vid != 0))
    ∧ (∀ p ∈ ortools_readback false val uvars, p.2 = none)
    ∧ (v, some (pumpkin_read_var ival bval v)) ∈ pumpkin_readback true ival bval uvars
    ∧ (∀ p ∈ pumpkin_readback false ival bval uvars, p.2 = none) := by
  refine ⟨?_, ?_, ?_, ?_, ?_⟩
  · have he : ortools_readback true val uvars
        = uvars.map (fun w => (w, some (ortools_read_var val w))) := rfl
    rw [he]
    exact List.mem_map.mpr ⟨v, hv, rfl⟩
  · intro hb
    simp [ortools_read_var, hb]
  · intro p hp
    have he : ortools_readback false val uvars
        = uvars.map (fun w => (w, (none : Option CpmValue))) := rfl
    rw [he] at hp
    obtain ⟨w, _, hw⟩ := List.mem_map.mp hp
    exact hw ▸ rfl
  · have he : pumpkin_readback true ival bval uvars
        = uvars.map (fun w => (w, some (pumpkin_read_var ival bval w))) := rfl
    rw [he]
    exact List.mem_map.mpr ⟨v, hv, rfl⟩
  · intro p hp
    have he : pumpkin_readback false ival bval uvars
        = uvars.map (fun w => (w, (none : Option CpmValue))) := rfl
    rw [he] at hp
    obtain ⟨w, _, hw⟩ := List.mem_map.mp hp
    exact hw ▸ rfl

/-- C3 (witness): concrete instantiation with a single Boolean user variable
    whose native value is the integer 1. -/
theorem solve_value_readback_witness :
    (⟨0, VKind.vbool⟩, some (ortools_read_var (fun _ => (1 : Int)) ⟨0, VKind.vbool⟩))
      ∈ ortools_readback true (fun _ => (1 : Int)) [⟨0, VKind.vbool⟩]
    ∧ ((⟨0, VKind.vbool⟩ : UVar).kind = VKind.vbool →
        ortools_read_var (fun _ => (1 : Int)) ⟨0, VKind.vbool⟩
          = CpmValue.vb ((fun _ => (1 : Int)) (0 : Nat) != 0))
    ∧ (∀ p ∈ ortools_readback false (fun _ => (1 : Int)) [⟨0, VKind.vbool⟩], p.2 = none)
    ∧ (⟨0, VKind.vbool⟩,
        some (pumpkin_read_var (fun _ => (0 : Int)) (fun _ => true) ⟨0, VKind.vbool⟩))
      ∈ pumpkin_readback true (fun _ => (0 : Int)) (fun _ => true) [⟨0, VKind.vbool⟩]
    ∧ (∀ p ∈ pumpkin_readback false (fun _ => (0 : Int)) (fun _ => true)
        [⟨0, VKind.vbool⟩], p.2 = none) :=
  solve_value_readback (fun _ => 1) (fun _ => 0) (fun _ => true)
    [⟨0, VKind.vbool⟩] ⟨0, VKind.vbool⟩ (by decide)

/-- C4 (code bug): posting a flat comparison whose left-hand side is in the
    backend-declared supported set does not always dispatch to one native
    call: a `sub` left-hand side raises TypeError inside `_sum_args` (the
    swapped `isinstance(Operator, expr)` on pumpkin.py line 381), and an `abs`
    left-hand side of an equality raises NotImplementedError because the whole
    operator is passed to `solver_var` (line 424); `sum` and `wsum` do
    dispatch to exactly one native constraint. -/
theorem pumpkin_sub_abs_dispatch_error :
    get_constraint_cmp ⟨CompName.eqc, LhsExpr.subE ⟨1, VKind.vint⟩ ⟨2, VKind.vint⟩, 0⟩
      = Except.error PyErr.typeError
    ∧ get_constraint_cmp ⟨CompName.lec, LhsExpr.subE ⟨1, VKind.vint⟩ ⟨2, VKind.vint⟩, 3⟩
      = Except.error PyErr.typeError
    ∧ get_constraint_cmp ⟨CompName.eqc, LhsExpr.absE ⟨1, VKind.vint⟩, 5⟩
      = Except.error PyErr.notImplementedError
    ∧ get_constraint_cmp
        ⟨CompName.eqc, LhsExpr.sumE [⟨1, VKind.vint⟩, ⟨2, VKind.vint⟩], 4⟩
      = Except.ok [PumConstraint.equalsC
          [pum_term ⟨1, VKind.vint⟩ 1, pum_term ⟨2, VKind.vint⟩ 1] 4]
    ∧ get_constraint_cmp
        ⟨CompName.eqc, LhsExpr.wsumE [2, 3] [⟨1, VKind.vint⟩, ⟨2, VKind.vint⟩], 4⟩
      = Except.ok [PumConstraint.equalsC
          [pum_term ⟨1, VKind.vint⟩ 2, pum_term ⟨2, VKind.vint⟩ 3] 4] := by
  exact ⟨rfl, rfl, rfl, rfl, rfl⟩

/-- C5 (counterexample): `CPM_pumpkin.solve` never reads its `time_limit`
    argument, so a call with `time_limit=-1` (and an objective set) raises no
    configuration error and proceeds to the native optimise call. -/
theorem pumpkin_time_limit_ignored_cex :
    pumpkin_solve_dispatch (some (-1)) true none PyVal.none_v
      = Except.ok PumNative.optimise := rfl

/-- C5 (amended): the OR-Tools adapter raises a configuration error
    (ValueError) for a non-positive time limit before any native solver call,
    while the Pumpkin adapter ignores the `time_limit` argument entirely (its
    behaviour is independent of the value passed) and performs no such check. -/
theorem time_limit_guard (t : Int) (ht : t ≤ 0) :
    ortools_solve_guarded (some t) = Except.error PyErr.valueError
    ∧ ortools_solve_guarded none = Except.ok 1
    ∧ (∀ tl tl' ho asm pf,
        pumpkin_solve_dispatch tl ho asm pf = pumpkin_solve_dispatch tl' ho asm pf) := by
  refine ⟨?_, rfl, ?_⟩
  · simp [ortools_solve_guarded, ht]
  · intro tl tl' ho asm pf
    rfl

/-- C5 (witness): the guard theorem applied at the concrete time limit -1. -/
theorem time_limit_guard_witness :
    (-1 : Int) ≤ 0
    ∧ ortools_solve_guarded (some (-1)) = Except.error PyErr.valueError :=
  ⟨by decide, (time_limit_guard (-1) (by decide)).1⟩

/-- C6: calling `get_core()` without a prior assumption-based UNSAT solve hits
    a hard precondition assertion in both adapters (native status not
    INFEASIBLE, no assumption dict recorded, or no native core stored); and
    whenever `get_core()` succeeds after a solve that recorded the reverse map
    from native keys to the assumption variables A, every returned variable is
    an element of A. -/
theorem get_core_spec :
    (∀ st idx, st.ort_status_infeasible = false →
        ortools_get_core st idx = Except.error PyErr.assertionError)
    ∧ (∀ idx, ortools_get_core ⟨true, none⟩ idx = Except.error PyErr.assertionError)
    ∧ (∀ A keys core res,
        ortools_get_core ⟨true, some (mk_assumption_dict keys A)⟩ core
          = Except.ok res → ∀ v ∈ res, v ∈ A)
    ∧ (∀ m, pumpkin_get_core m none = Except.error PyErr.assertionError)
    ∧ (∀ A keys core res,
        pumpkin_get_core (mk_assumption_dict keys A) (some core) = Except.ok res →
        ∀ v ∈ res, v ∈ A) := by
  refine ⟨?_, ?_, ?_, ?_, ?_⟩
  · intro st idx h
    simp [ortools_get_core, h]
  · intro idx
    rfl
  · intro A keys core res h v hv
    have h' : except_map_list (alist_get (mk_assumption_dict keys A)) core
        = Except.ok res := by
      simpa [ortools_get_core] using h
    obtain ⟨i, hi⟩ := except_map_list_mem h' v hv
    obtain ⟨k, hk⟩ := alist_get_mem hi
    exact (List.of_mem_zip hk).2
  · intro m
    rfl
  · intro A keys core res h v hv
    have h' : except_map_list (alist_get (mk_assumption_dict keys A)) core
        = Except.ok res := by
      simpa [pumpkin_get_core] using h
    obtain ⟨i, hi⟩ := except_map_list_mem h' v hv
    obtain ⟨k, hk⟩ := alist_get_mem hi
    exact (List.of_mem_zip hk).2

/-- C6 (witness): the precondition error on a fresh adapter, and the subset
    property at assumptions A = [9, 2] whose recorded core maps back to [2]. -/
theorem get_core_spec_witness :
    ortools_get_core ⟨false, none⟩ [] = Except.error PyErr.assertionError
    ∧ (2 : Nat) ∈ [9, 2] :=
  ⟨get_core_spec.1 ⟨false, none⟩ [] rfl,
   get_core_spec.2.2.1 [9, 2] [0, 1] [1] [2] (by rfl) 2 (by decide)⟩

/-- C7: `CPM_ortools.solveAll` raises NotSupportedError before any native
    enumeration call when an objective is set (zero native solves performed),
    and otherwise performs exactly one native enumeration solve and returns
    the number of solutions the engine reported to the counting callback. -/
theorem solveAll_spec (native_sols : List (List Int)) :
    ortools_solveAll true native_sols = (Except.error PyErr.notSupportedError, 0)
    ∧ ortools_solveAll false native_sols = (Except.ok native_sols.length, 1) := by
  constructor
  · rfl
  · simp [ortools_solveAll, ort_solution_counter, foldl_succ_count]

/-- C8: `solver_var` returns numeric constants unchanged without touching the
    cache; a negated-Boolean view returns the negation of its underlying
    variable's handle with exactly the same cache effect as resolving the
    underlying variable (no separate entry for the view); a Boolean or integer
    variable is created and cached on first call (one appended entry) and
    returned from the cache unchanged on every later call; an unknown variable
    kind raises NotImplementedError. -/
theorem solver_var_spec :
    (∀ n st, solver_var (CpmVar.constV n) st = Except.ok (NatHandle.numH n, st))
    ∧ (∀ vid st h st', solver_var (CpmVar.boolV vid) st = Except.ok (h, st') →
        solver_var (CpmVar.negView vid) st = Except.ok (negate h, st'))
    ∧ (∀ vid st h st', solver_var (CpmVar.boolV vid) st = Except.ok (h, st') →
        solver_var (CpmVar.boolV vid) st' = Except.ok (h, st'))
    ∧ (∀ vid lb ub st h st',
        solver_var (CpmVar.intV vid lb ub) st = Except.ok (h, st') →
        solver_var (CpmVar.intV vid lb ub) st' = Except.ok (h, st'))
    ∧ (∀ vid st, lookup_vm st.varmap vid = none →
        solver_var (CpmVar.boolV vid) st
          = Except.ok (NatHandle.posH st.next_handle,
              ⟨st.varmap ++ [(vid, st.next_handle)], st.next_handle + 1⟩))
    ∧ (∀ vid st h, lookup_vm st.varmap vid = some h →
        solver_var (CpmVar.boolV vid) st = Except.ok (NatHandle.posH h, st))
    ∧ (∀ vid st, solver_var (CpmVar.otherV vid) st
        = Except.error PyErr.notImplementedError) := by
  refine ⟨fun n st => rfl, ?_, ?_, ?_, ?_, ?_, fun vid st => rfl⟩
  · intro vid st h st' hb
    rw [solver_var_boolV_eq] at hb
    obtain ⟨hh, hs⟩ := Prod.mk.injEq .. ▸ Except.ok.injEq .. ▸ hb
    rw [solver_var_negView_eq, ← hh, ← hs]
    rfl
  · intro vid st h st' hb
    rw [solver_var_boolV_eq] at hb
    obtain ⟨hh, hs⟩ := Prod.mk.injEq .. ▸ Except.ok.injEq .. ▸ hb
    rw [solver_var_boolV_eq, ← hh, ← hs, get_or_create_idem]
  · intro vid lb ub st h st' hb
    rw [solver_var_intV_eq] at hb
    obtain ⟨hh, hs⟩ := Prod.mk.injEq .. ▸ Except.ok.injEq .. ▸ hb
    rw [solver_var_intV_eq, ← hh, ← hs, get_or_create_idem]
  · intro vid st hl
    rw [solver_var_boolV_eq]
    simp [get_or_create, hl]
  · intro vid st h hl
    rw [solver_var_boolV_eq]
    simp [get_or_create, hl]

/-- C8 (witness): the caching conjunct applied to a fresh Boolean variable —
    the second call returns the handle created and cached by the first. -/
theorem solver_var_spec_witness :
    solver_var (CpmVar.boolV 0) ⟨[(0, 7)], 8⟩
      = Except.ok (NatHandle.posH 7, ⟨[(0, 7)], 8⟩) :=
  solver_var_spec.2.2.1 0 ⟨[], 7⟩ (NatHandle.posH 7) ⟨[(0, 7)], 8⟩ rfl

/-- C9 (counterexample): the user-variable set does not contain only
    caller-supplied variables: a single `objective(...)` call on a fresh
    Pumpkin adapter (auxiliary counter at 100) over an expression with
    variables {3, 4} puts the freshly created objective variable 100 into the
    user-variable set, although 100 appears in no caller expression. -/
theorem user_vars_purity_cex :
    (100 : Nat) ∈ (run_calls [AdapterCall.objectiveC ⟨{3, 4}, 0⟩ true]
        ⟨∅, 100⟩).user_vars
    ∧ (100 : Nat) ∉ caller_vars [AdapterCall.objectiveC ⟨{3, 4}, 0⟩ true] := by
  constructor
  · simp [run_calls, run_call]
  · simp [caller_vars]

/-- C9 (amended): the user-variable set grows monotonically — it never
    shrinks — across every sequence of add() and objective() calls, but it is
    not limited to caller-supplied variables: add() contributes exactly the
    variables of the added expressions only when posting them creates no
    auxiliaries (posting constraints such as ortools' circuit, mod and pow
    additionally registers freshly created auxiliary variables), and
    objective() additionally registers the freshly created auxiliary objective
    variable as a user variable. -/
theorem user_vars_monotone :
    (∀ c st, st.user_vars ⊆ (run_call c st).user_vars)
    ∧ (∀ calls st, st.user_vars ⊆ (run_calls calls st).user_vars)
    ∧ (∀ e st, e.n_post_aux = 0 →
        (run_call (AdapterCall.addC e) st).user_vars = st.user_vars ∪ e.evars)
    ∧ (∀ e m st, (run_call (AdapterCall.objectiveC e m) st).user_vars
        = st.user_vars ∪ e.evars ∪ {st.next_aux}) := by
  have hmono : ∀ c st, st.user_vars ⊆ (run_call c st).user_vars := by
    intro c st
    cases c with
    | addC e =>
      exact subset_trans Finset.subset_union_left Finset.subset_union_left
    | objectiveC e m =>
      exact subset_trans Finset.subset_union_left Finset.subset_union_left
  refine ⟨hmono, ?_, ?_, fun e m st => rfl⟩
  · intro calls
    induction calls with
    | nil => intro st; exact subset_refl _
    | cons c cs ih =>
      intro st
      exact subset_trans (hmono c st) (ih (run_call c st))
  · intro e st h
    simp [run_call, h]

/-- C9 (witness): an auxiliary-free add() on a fresh adapter contributes
    exactly the caller's variables. -/
theorem user_vars_monotone_witness :
    (⟨{3, 4}, 0⟩ : CExprM).n_post_aux = 0
    ∧ (run_call (AdapterCall.addC ⟨{3, 4}, 0⟩) ⟨∅, 100⟩).user_vars
        = (∅ : Finset Nat) ∪ {3, 4} :=
  ⟨rfl, user_vars_monotone.2.2.1 ⟨{3, 4}, 0⟩ ⟨∅, 100⟩ rfl⟩

/-- C10: in the Pumpkin adapter, whenever solve() ends with a solution
    available (`_solve_return` true), the exit status reported to the caller
    is OPTIMAL — the classification is overwritten after the availability
    check — so FEASIBLE is never reported, in all three native result
    branches, including pure satisfaction solves and optimisation solves whose
    native result was only Satisfiable. -/
theorem pumpkin_status_always_optimal :
    (∀ r, solve_return (classify_opt r) = true →
        pumpkin_final_status (classify_opt r) = ExitStatus.OPTIMAL)
    ∧ (∀ r, solve_return (classify_sat r) = true →
        pumpkin_final_status (classify_sat r) = ExitStatus.OPTIMAL)
    ∧ (∀ r, solve_return (classify_assum r) = true →
        pumpkin_final_status (classify_assum r) = ExitStatus.OPTIMAL)
    ∧ (∀ st, pumpkin_final_status st ≠ ExitStatus.FEASIBLE) := by
  refine ⟨?_, ?_, ?_, ?_⟩
  · intro r; cases r <;> decide
  · intro r; cases r <;> decide
  · intro r; cases r <;> decide
  · intro st; cases st <;> decide

/-- C10 (witness): an optimisation solve whose native result is merely
    Satisfiable (classified FEASIBLE) is reported as OPTIMAL. -/
theorem pumpkin_status_always_optimal_witness :
    solve_return (classify_opt PumOptResult.satisfiable) = true
    ∧ pumpkin_final_status (classify_opt PumOptResult.satisfiable)
        = ExitStatus.OPTIMAL :=
  ⟨rfl, pumpkin_status_always_optimal.1 PumOptResult.satisfiable rfl⟩
